import Mathlib

/-!
Verification of the transistor-fm-api client library.

We shallowly embed the parts of the code the claims concern:

* the sliding-window rate limiter injected by `add_rate_limiting.py`
  (`_enforce_rate_limit`);
* the transport and status-code error classifier of
  `transistor/client_fixed_final.py` (`_request`) together with the error
  taxonomy of `transistor/exceptions.py`;
* the pagination workaround (`get_all_episode_ids`,
  `get_all_episodes_full_data`) in both `client_fixed_final.py`
  and `client_actual_fix.py`;
* the audio upload error handling (`upload_audio`).

JSON documents are modelled by the inductive `JValue`; the Python
operations the code performs on them (`in`, subscripting, `.get`,
iteration, `str`) are modelled by functions returning `Except PyErr _`
so that raising is explicit.
-/

namespace Transistor

/-- A JSON value, i.e. the Python object obtained from `response.json()`.
Numbers are modelled as integers (episode ids are integral). -/
inductive JValue where
  | null : JValue
  | bool (b : Bool) : JValue
  | num (n : Int) : JValue
  | str (s : String) : JValue
  | arr (xs : List JValue) : JValue
  | obj (fields : List (String × JValue)) : JValue

/-- A Python exception raised by a dict/list/str primitive. -/
inductive PyErr where
  | keyError (key : String)
  | typeError (msg : String)
  | attributeError (msg : String)
  deriving DecidableEq

/-- `str(e)` for a `PyErr` (Python renders `KeyError(k)` as the repr of `k`). -/
def PyErr.message : PyErr → String
  | .keyError k => "\x27" ++ k ++ "\x27"
  | .typeError m => m
  | .attributeError m => m

/-- Python equality test of a string against an arbitrary value:
`needle == v` is `True` only when `v` is that very string. -/
def strEqJ (needle : String) : JValue → Bool
  | .str t => needle == t
  | _ => false

/-- Python `needle in v` for a string needle: key membership for a dict,
element membership for a list, substring test for a string, and a
`TypeError` for non-container values (numbers, booleans, `None`). -/
def pyContains (needle : String) : JValue → Except PyErr Bool
  | .obj fs => .ok (fs.lookup needle).isSome
  | .arr xs => .ok (xs.any (strEqJ needle))
  | .str s => .ok (2 ≤ (s.splitOn needle).length)
  | _ => .error (.typeError "argument of type is not iterable")

/-- Python `v[key]` for a string key: dict lookup (raising `KeyError` when
absent); lists and strings reject string indices; everything else is not
subscriptable. -/
def pyGetItem (v : JValue) (key : String) : Except PyErr JValue :=
  match v with
  | .obj fs =>
    match fs.lookup key with
    | some x => .ok x
    | none => .error (.keyError key)
  | .arr _ => .error (.typeError "list indices must be integers or slices, not str")
  | .str _ => .error (.typeError "string indices must be integers, not str")
  | _ => .error (.typeError "object is not subscriptable")

/-- Python `v.get(key, default)`: only dicts have `.get`; any other value
raises `AttributeError`. -/
def dictGet (v : JValue) (key : String) (default : JValue) : Except PyErr JValue :=
  match v with
  | .obj fs => .ok ((fs.lookup key).getD default)
  | _ => .error (.attributeError "object has no attribute get")

/-- Python iteration `for x in v`: lists yield their elements, dicts their
keys, strings their characters; other values raise `TypeError`. -/
def pyIter : JValue → Except PyErr (List JValue)
  | .arr xs => .ok xs
  | .obj fs => .ok (fs.map (fun kv => JValue.str kv.1))
  | .str s => .ok (s.toList.map (fun c => JValue.str (String.singleton c)))
  | _ => .error (.typeError "object is not iterable")

/-- Python `str(v)` for the scalar values that occur as episode ids.
The textual repr of containers is not needed by any claim and is left
as a placeholder. -/
def pyStr : JValue → String
  | .null => "None"
  | .bool true => "True"
  | .bool false => "False"
  | .num n => toString n
  | .str s => s
  | .arr _ => "[...]"
  | .obj _ => "\x7b...\x7d"

/-! ## HTTP responses and the error taxonomy (`transistor/exceptions.py`) -/

/-- An HTTP response as seen through the `requests` library: its status
code, its decoded body text (`response.text`, empty iff `response.content`
is empty) and the outcome of attempting to decode the body as JSON
(`response.json()`, whose failure message is the `String` in the error
case; that failure is a `requests.RequestException`). -/
structure Response where
  status_code : Nat
  text : String
  parsed : Except String JValue

/-- `response.ok` in `requests`: true exactly when the status is < 400. -/
def Response.ok (r : Response) : Prop := r.status_code < 400

instance (r : Response) : Decidable r.ok := by
  unfold Response.ok; infer_instance

/-- The five exception kinds of `transistor/exceptions.py`: the four
specific subclasses and the generic base `TransistorAPIError`. -/
inductive ErrKind where
  | rateLimit
  | authentication
  | notFound
  | validation
  | generic
  deriving DecidableEq

/-- A raised `TransistorAPIError` (or subclass): its kind, message,
optional status code and optional raw response. -/
structure ApiError where
  kind : ErrKind
  message : String
  status_code : Option Nat
  response : Option Response

/-- What the HTTP library hands back to the client code: either a
network-level failure (a `requests.RequestException`, carrying `str(e)`)
or a response. -/
inductive HttpOutcome where
  | netFail (e : String)
  | resp (r : Response)

/-- A failure escaping `upload_audio`: either a raised
`TransistorAPIError` (or subclass), or an exception of some other type
that the method does not catch. -/
inductive UploadFailure where
  | apiErr (e : ApiError)
  | untyped (e : String)

namespace ClientFixedFinal

/-- `TransistorClient._request` of `client_fixed_final.py`, as a function
of the HTTP outcome: maps 429/401/404/422 to the specific errors, any
other not-ok status to the generic error carrying the body text, and on
the success path parses the body when non-empty (a JSON decode failure is
a `requests.RequestException` and is caught by the same handler as
network failures). -/
def _request (o : HttpOutcome) : Except ApiError JValue :=
  match o with
  | .netFail e => .error ⟨.generic, "Request failed: " ++ e, none, none⟩
  | .resp r =>
    if r.status_code = 429 then
      .error ⟨.rateLimit, "Rate limit exceeded. Wait 10 seconds.", some 429, some r⟩
    else if r.status_code = 401 then
      .error ⟨.authentication, "Invalid API key", some 401, some r⟩
    else if r.status_code = 404 then
      .error ⟨.notFound, "Resource not found", some 404, some r⟩
    else if r.status_code = 422 then
      .error ⟨.validation, "Validation error", some 422, some r⟩
    else if ¬ r.ok then
      .error ⟨.generic, "API error: " ++ r.text, some r.status_code, some r⟩
    else if r.text ≠ "" then
      match r.parsed with
      | .ok v => .ok v
      | .error e => .error ⟨.generic, "Request failed: " ++ e, none, none⟩
    else .ok (JValue.obj [])

/-- `TransistorClient.upload_audio` of `client_fixed_final.py`, as a
function of the HTTP outcome of its direct `requests.post` call: only 429
gets a specific error; any other not-ok status raises the generic error;
there is no try/except, so a network failure or a JSON decode failure
escapes as the underlying (non-`TransistorAPIError`) exception. -/
def upload_audio (o : HttpOutcome) : Except UploadFailure JValue :=
  match o with
  | .netFail e => .error (.untyped e)
  | .resp r =>
    if r.status_code = 429 then
      .error (.apiErr ⟨.rateLimit, "Rate limit exceeded", some 429, some r⟩)
    else if ¬ r.ok then
      .error (.apiErr ⟨.generic, "Upload failed: " ++ r.text, some r.status_code, some r⟩)
    else
      match r.parsed with
      | .ok v => .ok v
      | .error e => .error (.untyped e)

/-- The list comprehension of `get_all_episode_ids`:
`[str(ep[\x27id\x27]) for ep in episodes]`, elements evaluated left to
right, the first raised exception propagating. -/
def episodeIdStrings : List JValue → Except PyErr (List String)
  | [] => .ok []
  | ep :: rest => do
    let idv ← pyGetItem ep "id"
    let restIds ← episodeIdStrings rest
    pure (pyStr idv :: restIds)

/-- `TransistorClient.get_all_episode_ids` of `client_fixed_final.py`, as
a function of the analytics document returned by
`get_all_episodes_analytics`: when `data` is a member of the document and
`attributes` a member of its value, extract
`analytics[data][attributes].get(episodes, [])` and stringify each
element's `id`; otherwise return the empty list. -/
def get_all_episode_ids (analytics : JValue) : Except PyErr (List String) := do
  let hasData ← pyContains "data" analytics
  if hasData then
    let dataV ← pyGetItem analytics "data"
    let hasAttrs ← pyContains "attributes" dataV
    if hasAttrs then
      let dataV2 ← pyGetItem analytics "data"
      let attrs ← pyGetItem dataV2 "attributes"
      let episodes ← dictGet attrs "episodes" (JValue.arr [])
      let eps ← pyIter episodes
      episodeIdStrings eps
    else
      pure []
  else
    pure []

end ClientFixedFinal

/-- One iteration body of the `get_all_episodes_full_data` loop (identical
in both client files): call `get_episode` (the `fetch` oracle, whose error
is `str(e)` of the raised exception) and then take `episode[data]`; an
exception from either step is caught by the `except` clause with its
`str`. -/
def stepFetch (fetch : String → Except String JValue) (episode_id : String) :
    Except String JValue :=
  match fetch episode_id with
  | .error e => .error e
  | .ok episode =>
    match pyGetItem episode "data" with
    | .ok d => .ok d
    | .error pe => .error pe.message

/-- The dict returned by `get_all_episodes_full_data`, plus, as an
observable trace, the 0-based loop indices at which `time.sleep(1)`
executed (`sleeps` is instrumentation of the embedding, not a key of the
returned dict). -/
structure BulkResult where
  data : List JValue
  total_requested : Nat
  successful : Nat
  failed : Nat
  failed_episodes : List (String × String)
  sleeps : List Nat

namespace ClientFixedFinal

/-- The loop of `get_all_episodes_full_data` (`client_fixed_final.py`):
`i` is the current 0-based index, `total` the length of the full id list;
after a successful iteration whose 1-based position is divisible by 9 and
is not the last position, the code sleeps one second. Returns the success
records, the failure pairs and the sleep trace. -/
def bulkLoop (fetch : String → Except String JValue) :
    List String → Nat → Nat → List JValue × List (String × String) × List Nat
  | [], _, _ => ([], [], [])
  | episode_id :: rest, i, total =>
    let r := bulkLoop fetch rest (i + 1) total
    match stepFetch fetch episode_id with
    | .ok d =>
      (d :: r.1, r.2.1,
        if (i + 1) % 9 = 0 ∧ i + 1 < total then i :: r.2.2 else r.2.2)
    | .error e =>
      (r.1, (episode_id, e) :: r.2.1, r.2.2)

/-- `TransistorClient.get_all_episodes_full_data` of
`client_fixed_final.py`, as a function of the already-extracted episode id
list and the `get_episode` oracle. -/
def get_all_episodes_full_data (fetch : String → Except String JValue)
    (episode_ids : List String) : BulkResult :=
  let r := bulkLoop fetch episode_ids 0 episode_ids.length
  { data := r.1
    total_requested := episode_ids.length
    successful := r.1.length
    failed := r.2.1.length
    failed_episodes := r.2.1
    sleeps := r.2.2 }

end ClientFixedFinal

namespace ClientActualFix

/-- The list comprehension of `get_all_episode_ids`
(`client_actual_fix.py`): `[ep[\x27id\x27] for ep in analytics[\x27data\x27]]`,
ids taken raw (no `str`). -/
def episodeIdsRaw : List JValue → Except PyErr (List JValue)
  | [] => .ok []
  | ep :: rest => do
    let idv ← pyGetItem ep "id"
    let restIds ← episodeIdsRaw rest
    pure (idv :: restIds)

/-- `TransistorClientActualFix.get_all_episode_ids` of
`client_actual_fix.py`: iterates directly over `analytics[data]`
(assuming it is an array of episode records) and reads each element's
`id`. -/
def get_all_episode_ids (analytics : JValue) : Except PyErr (List JValue) := do
  let dataV ← pyGetItem analytics "data"
  let eps ← pyIter dataV
  episodeIdsRaw eps

/-- The loop of `get_all_episodes_full_data` (`client_actual_fix.py`):
identical to the `client_fixed_final.py` loop except that the sleep after
every 9th position has no last-item guard. -/
def bulkLoop (fetch : String → Except String JValue) :
    List String → Nat → List JValue × List (String × String) × List Nat
  | [], _ => ([], [], [])
  | episode_id :: rest, i =>
    let r := bulkLoop fetch rest (i + 1)
    match stepFetch fetch episode_id with
    | .ok d =>
      (d :: r.1, r.2.1, if (i + 1) % 9 = 0 then i :: r.2.2 else r.2.2)
    | .error e =>
      (r.1, (episode_id, e) :: r.2.1, r.2.2)

/-- `TransistorClientActualFix.get_all_episodes_full_data` of
`client_actual_fix.py`. -/
def get_all_episodes_full_data (fetch : String → Except String JValue)
    (episode_ids : List String) : BulkResult :=
  let r := bulkLoop fetch episode_ids 0
  { data := r.1
    total_requested := episode_ids.length
    successful := r.1.length
    failed := r.2.1.length
    failed_episodes := r.2.1
    sleeps := r.2.2 }

end ClientActualFix

namespace RateLimiter

/-!
The rate limiter of `add_rate_limiting.py`. The source works with
`time.time()` float seconds; we model instants as integers counting tenths
of a second, so the 10-second horizon is `100` and the `0.1` buffer is
`1`. The window `request_times` is a `deque(maxlen=10)`, front oldest.
-/

/-- The eviction loop: `while request_times and now - request_times[0] > 10:
popleft()`. -/
def dropOld (now : Int) : List Int → List Int
  | [] => []
  | t :: rest => if 100 < now - t then dropOld now rest else t :: rest

/-- `deque(maxlen=10).append t`: when the deque already holds 10 entries,
the leftmost is discarded. -/
def dequeAppend (w : List Int) (t : Int) : List Int :=
  if 10 ≤ w.length then w.tail ++ [t] else w ++ [t]

/-- `_enforce_rate_limit`: samples `now` once at entry, evicts old
entries, sleeps `10 - (now - oldest) + 0.1` seconds when the window is
full (and that amount is positive), then appends `now` — the pre-sleep
sample — to the window. Returns the slept duration and the new window. -/
def _enforce_rate_limit (w : List Int) (now : Int) : Int × List Int :=
  let w1 := dropOld now w
  let sleep_time : Int :=
    if 10 ≤ w1.length then
      let st := 100 - (now - w1.headI) + 1
      if 0 < st then st else 0
    else 0
  (sleep_time, dequeAppend w1 now)

/-- `n` back-to-back calls to `_enforce_rate_limit` starting with window
`w` at instant `t` (each call begins the moment the previous one
returns). Yields, per call, the pair (timestamp recorded into the window,
instant at which the call returns and the request is issued). -/
def run : Nat → List Int → Int → List (Int × Int)
  | 0, _, _ => []
  | n + 1, w, t =>
    let r := _enforce_rate_limit w t
    (t, t + r.1) :: run n r.2 (t + r.1)

end RateLimiter

/-! ## Concrete inputs used to settle the claims -/

/-- An episode record as it appears inside the all-episodes analytics
document: an object carrying at least an `id`. -/
def mkEpisode (n : Nat) : JValue :=
  .obj [("id", .num n), ("title", .str ("Episode " ++ toString n))]

/-- The nested shape of the all-episodes analytics response:
`data.attributes.episodes` is the full episode array (cf. the structure
comment in `client_fixed_final.py` and the FIXED note in
`client_final_fix.py`). -/
def mkAnalyticsDoc (ids : List Nat) : JValue :=
  .obj [("data", .obj [("attributes", .obj [("episodes", .arr (ids.map mkEpisode))])])]

/-- The 65 episode ids 1..65 of the spec scenario. -/
def ids65 : List Nat := (List.range 65).map (· + 1)

/-- A fetch oracle on which every `get_episode` call succeeds. -/
def fetchConst : String → Except String JValue :=
  fun _ => .ok (.obj [("data", .obj [])])

/-- A fetch oracle failing exactly on id `1`. -/
def fetchFail1 : String → Except String JValue :=
  fun i => if i == "1" then .error "boom" else .ok (.obj [("data", .obj [])])

/-- A fetch oracle failing exactly on id `2`. -/
def fetchFail2 : String → Except String JValue :=
  fun i => if i == "2" then .error "boom" else .ok (.obj [("data", .str i)])

def ids9 : List String := ["1", "2", "3", "4", "5", "6", "7", "8", "9"]

def ids10 : List String := ["1", "2", "3", "4", "5", "6", "7", "8", "9", "10"]

/-! ## Helper lemmas -/

theorem except_bind_ok {ε α β : Type} (a : α) (f : α → Except ε β) :
    (Except.ok a : Except ε α) >>= f = f a := rfl

theorem except_pure_eq {ε α : Type} (a : α) :
    (pure a : Except ε α) = Except.ok a := rfl

theorem bulkLoopFF_data (fetch : String → Except String JValue)
    (ids : List String) (i total : Nat) :
    (ClientFixedFinal.bulkLoop fetch ids i total).1 =
      ids.filterMap (fun x => (stepFetch fetch x).toOption) := by
  induction ids generalizing i with
  | nil => rfl
  | cons a l ih =>
    simp only [ClientFixedFinal.bulkLoop, List.filterMap_cons]
    cases h : stepFetch fetch a <;> simp [h, Except.toOption, ih]

theorem bulkLoopFF_failed (fetch : String → Except String JValue)
    (ids : List String) (i total : Nat) :
    (ClientFixedFinal.bulkLoop fetch ids i total).2.1 =
      ids.filterMap (fun x =>
        match stepFetch fetch x with
        | .ok _ => none
        | .error e => some (x, e)) := by
  induction ids generalizing i with
  | nil => rfl
  | cons a l ih =>
    simp only [ClientFixedFinal.bulkLoop, List.filterMap_cons]
    cases h : stepFetch fetch a <;> simp [h, ih]

theorem bulkLoopFF_length (fetch : String → Except String JValue)
    (ids : List String) (i total : Nat) :
    (ClientFixedFinal.bulkLoop fetch ids i total).1.length +
      (ClientFixedFinal.bulkLoop fetch ids i total).2.1.length = ids.length := by
  induction ids generalizing i with
  | nil => rfl
  | cons a l ih =>
    simp only [ClientFixedFinal.bulkLoop]
    cases h : stepFetch fetch a <;> simp only [h] <;>
      · have := ih (i + 1)
        simp only [List.length_cons]
        omega

theorem bulkLoopFF_sleeps (fetch : String → Except String JValue)
    (ids : List String) (i total : Nat) :
    (ClientFixedFinal.bulkLoop fetch ids i total).2.2 =
      (ids.enumFrom i).filterMap (fun p =>
        if (stepFetch fetch p.2).toOption.isSome ∧ (p.1 + 1) % 9 = 0 ∧ p.1 + 1 < total
        then some p.1 else none) := by
  induction ids generalizing i with
  | nil => rfl
  | cons a l ih =>
    simp only [ClientFixedFinal.bulkLoop, List.enumFrom_cons, List.filterMap_cons]
    cases h : stepFetch fetch a <;>
      simp only [h, Except.toOption, Option.isSome, false_and, true_and, if_false] <;>
      [skip; split_ifs with hc] <;> simp [ih] <;> rfl

theorem bulkLoopAF_sleeps (fetch : String → Except String JValue)
    (ids : List String) (i : Nat) :
    (ClientActualFix.bulkLoop fetch ids i).2.2 =
      (ids.enumFrom i).filterMap (fun p =>
        if (stepFetch fetch p.2).toOption.isSome ∧ (p.1 + 1) % 9 = 0
        then some p.1 else none) := by
  induction ids generalizing i with
  | nil => rfl
  | cons a l ih =>
    simp only [ClientActualFix.bulkLoop, List.enumFrom_cons, List.filterMap_cons]
    cases h : stepFetch fetch a <;>
      simp only [h, Except.toOption, Option.isSome, false_and, true_and, if_false] <;>
      [skip; split_ifs with hc] <;> simp [ih] <;> rfl

/-! ## The claims -/

/-- C1: the rate-limit enforcement step, called with a full window of 10
young timestamps, does block for `10 - (now - oldest) + 0.1` seconds
(here 101 tenths of a second), but the timestamp it then records is the
`now` sampled BEFORE sleeping, not the post-wait time `now + sleep`:
with a window of ten timestamps 0 and `now = 0`, the recorded timestamp
is 0 while the post-wait instant is 101. -/
theorem c1_enforce_records_pre_sleep_time :
    (RateLimiter._enforce_rate_limit (List.replicate 10 0) 0).1 = 101 ∧
    (RateLimiter._enforce_rate_limit (List.replicate 10 0) 0).2.getLast? = some 0 ∧
    (RateLimiter._enforce_rate_limit (List.replicate 10 0) 0).2.getLast? ≠
      some (0 + (RateLimiter._enforce_rate_limit (List.replicate 10 0) 0).1) := by
  decide

/-- C4: in 12 back-to-back enforcement calls starting at instant 0, the
11th call does block until instant 101 (10.1 seconds after the 1st call,
the concrete half of the claim), but the recorded-timestamp invariant
fails: calls 2 and 11 are 9 calls apart yet both record timestamp 0
(because the 11th call records its pre-sleep `now`), a difference of 0,
far below 10 - 0.1 seconds. -/
theorem c4_recorded_window_invariant_violated :
    RateLimiter.run 12 [] 0 =
      List.replicate 10 ((0 : Int), (0 : Int)) ++ [(0, 101), (101, 101)] ∧
    ((RateLimiter.run 12 [] 0).get? 1).map Prod.fst = some 0 ∧
    ((RateLimiter.run 12 [] 0).get? 10).map Prod.fst = some 0 ∧
    ((RateLimiter.run 12 [] 0).get? 10).map Prod.snd = some 101 := by
  decide

/-- C5: in `get_all_episodes_full_data` (client_fixed_final.py) the
success records are exactly the fetched-and-extracted records of the ids
whose iteration succeeded, in request order; the failure list is exactly
the failed ids paired with their error messages, in request order; and
any id whose fetch raises ends up in the failure list paired with the
message while the batch still processes every other id — no failure
aborts the call. -/
theorem c5_partial_failure_isolation (fetch : String → Except String JValue)
    (ids : List String) :
    (ClientFixedFinal.get_all_episodes_full_data fetch ids).data =
      ids.filterMap (fun x => (stepFetch fetch x).toOption) ∧
    (ClientFixedFinal.get_all_episodes_full_data fetch ids).failed_episodes =
      ids.filterMap (fun x =>
        match stepFetch fetch x with
        | .ok _ => none
        | .error e => some (x, e)) ∧
    ∀ x e, x ∈ ids → fetch x = .error e →
      (x, e) ∈ (ClientFixedFinal.get_all_episodes_full_data fetch ids).failed_episodes := by
  refine ⟨bulkLoopFF_data fetch ids 0 ids.length,
    bulkLoopFF_failed fetch ids 0 ids.length, ?_⟩
  intro x e hx hf
  have h2 : (ClientFixedFinal.get_all_episodes_full_data fetch ids).failed_episodes =
      (ClientFixedFinal.bulkLoop fetch ids 0 ids.length).2.1 := rfl
  rw [h2, bulkLoopFF_failed]
  exact List.mem_filterMap.mpr ⟨x, hx, by simp [stepFetch, hf]⟩

/-- C5 witness: with a fetch oracle failing exactly on id 2 of three ids,
the failure pair (2, boom) is collected. -/
theorem c5_partial_failure_isolation_witness :
    ("2", "boom") ∈
      (ClientFixedFinal.get_all_episodes_full_data fetchFail2 ["1", "2", "3"]).failed_episodes :=
  (c5_partial_failure_isolation fetchFail2 ["1", "2", "3"]).2.2 "2" "boom" (by decide) rfl

/-- C10: in every result of `get_all_episodes_full_data`
(client_fixed_final.py), `total_requested = successful + failed`,
`successful` is the length of the success sequence, `failed` the length
of the failure list, and `total_requested` the number of processed ids —
so each id contributes to exactly one of the two lists. -/
theorem c10_bulk_meta_consistency (fetch : String → Except String JValue)
    (ids : List String) :
    (ClientFixedFinal.get_all_episodes_full_data fetch ids).total_requested =
      (ClientFixedFinal.get_all_episodes_full_data fetch ids).successful +
        (ClientFixedFinal.get_all_episodes_full_data fetch ids).failed ∧
    (ClientFixedFinal.get_all_episodes_full_data fetch ids).successful =
      (ClientFixedFinal.get_all_episodes_full_data fetch ids).data.length ∧
    (ClientFixedFinal.get_all_episodes_full_data fetch ids).failed =
      (ClientFixedFinal.get_all_episodes_full_data fetch ids).failed_episodes.length ∧
    (ClientFixedFinal.get_all_episodes_full_data fetch ids).total_requested = ids.length := by
  refine ⟨(bulkLoopFF_length fetch ids 0 ids.length).symm, rfl, rfl, rfl⟩

/-- C2 counterexample: a 304 response is not a 2xx status, yet `_request`
does not raise the generic error — it takes the success path and returns
the parsed body, because the code tests `response.ok` (status < 400)
rather than membership in 2xx. -/
theorem c2_counterexample_304_not_error :
    ClientFixedFinal._request (.resp ⟨304, "null", .ok .null⟩) = .ok .null ∧
    ¬ (200 ≤ 304 ∧ 304 ≤ 299) :=
  ⟨rfl, by decide⟩

/-- C2 (amended): for every received response, status 429 raises
RateLimitError, 401 AuthenticationError, 404 NotFoundError, 422
ValidationError, and any other status of at least 400 the generic
TransistorAPIError carrying the body text in its message — each with the
original status code and raw response; a status below 400 (2xx, but also
1xx/3xx such as 304) takes the success path: empty body gives the empty
document, a non-empty JSON body is parsed and returned. -/
theorem c2_status_to_error_mapping (r : Response) :
    (r.status_code = 429 → ClientFixedFinal._request (.resp r) =
      .error ⟨.rateLimit, "Rate limit exceeded. Wait 10 seconds.", some 429, some r⟩) ∧
    (r.status_code = 401 → ClientFixedFinal._request (.resp r) =
      .error ⟨.authentication, "Invalid API key", some 401, some r⟩) ∧
    (r.status_code = 404 → ClientFixedFinal._request (.resp r) =
      .error ⟨.notFound, "Resource not found", some 404, some r⟩) ∧
    (r.status_code = 422 → ClientFixedFinal._request (.resp r) =
      .error ⟨.validation, "Validation error", some 422, some r⟩) ∧
    (r.status_code ≠ 429 → r.status_code ≠ 401 → r.status_code ≠ 404 →
      r.status_code ≠ 422 → 400 ≤ r.status_code →
      ClientFixedFinal._request (.resp r) =
        .error ⟨.generic, "API error: " ++ r.text, some r.status_code, some r⟩) ∧
    (r.status_code < 400 →
      (r.text = "" → ClientFixedFinal._request (.resp r) = .ok (JValue.obj [])) ∧
      (∀ v, r.parsed = .ok v → r.text ≠ "" →
        ClientFixedFinal._request (.resp r) = .ok v)) := by
  refine ⟨fun h => ?_, fun h => ?_, fun h => ?_, fun h => ?_,
    fun h1 h2 h3 h4 h5 => ?_, fun hlt => ⟨fun ht => ?_, fun v hp ht => ?_⟩⟩
  · simp [ClientFixedFinal._request, h]
  · simp [ClientFixedFinal._request, h]
  · simp [ClientFixedFinal._request, h]
  · simp [ClientFixedFinal._request, h]
  · simp only [ClientFixedFinal._request]
    rw [if_neg h1, if_neg h2, if_neg h3, if_neg h4,
      if_pos (show ¬ r.ok by simp only [Response.ok]; omega)]
  · simp only [ClientFixedFinal._request]
    rw [if_neg (by omega), if_neg (by omega), if_neg (by omega), if_neg (by omega),
      if_neg (show ¬ ¬ r.ok by simp only [Response.ok, not_not]; omega),
      if_neg (by simp [ht])]
  · simp only [ClientFixedFinal._request]
    rw [if_neg (by omega), if_neg (by omega), if_neg (by omega), if_neg (by omega),
      if_neg (show ¬ ¬ r.ok by simp only [Response.ok, not_not]; omega),
      if_pos ht, hp]

/-- C2 witness: a 500 response with body text boom raises the generic
error carrying that text, the status and the response. -/
theorem c2_status_to_error_mapping_witness :
    ClientFixedFinal._request (.resp ⟨500, "boom", .error "nojson"⟩) =
      .error ⟨.generic, "API error: boom", some 500, some ⟨500, "boom", .error "nojson"⟩⟩ :=
  (c2_status_to_error_mapping ⟨500, "boom", .error "nojson"⟩).2.2.2.2.1
    (by decide) (by decide) (by decide) (by decide) (by decide)

/-- C8: every 2xx response whose body content is empty makes `_request`
return the empty document; the `parsed` field is arbitrary — in
particular it may be a decode failure — so no JSON parsing is attempted
and no parse failure can be raised. -/
theorem c8_empty_body_success (r : Response) (h1 : 200 ≤ r.status_code)
    (h2 : r.status_code ≤ 299) (h3 : r.text = "") :
    ClientFixedFinal._request (.resp r) = .ok (JValue.obj []) := by
  simp only [ClientFixedFinal._request]
  rw [if_neg (by omega), if_neg (by omega), if_neg (by omega), if_neg (by omega),
    if_neg (show ¬ ¬ r.ok by simp only [Response.ok, not_not]; omega),
    if_neg (by simp [h3])]

/-- C8 witness: a 204 response with empty text and an unparseable body
yields the empty document. -/
theorem c8_empty_body_success_witness :
    ClientFixedFinal._request (.resp ⟨204, "", .error "Expecting value"⟩) =
      .ok (JValue.obj []) :=
  c8_empty_body_success ⟨204, "", .error "Expecting value"⟩ (by decide) (by decide) rfl

/-- C6 counterexample: `upload_audio` on a 401 response raises the
generic TransistorAPIError, not AuthenticationError, and a network-level
failure escapes as the untyped underlying exception, not as a
TransistorAPIError. -/
theorem c6_counterexample_upload_401_generic :
    ClientFixedFinal.upload_audio (.resp ⟨401, "Unauthorized", .error "nojson"⟩) =
      .error (.apiErr ⟨.generic, "Upload failed: Unauthorized", some 401,
        some ⟨401, "Unauthorized", .error "nojson"⟩⟩) ∧
    ClientFixedFinal.upload_audio (.netFail "Connection refused") =
      .error (.untyped "Connection refused") :=
  ⟨rfl, rfl⟩

/-- C6 (amended): `upload_audio` maps only 429 to RateLimitError; every
other response with status at least 400 — including 401, 404 and 422 —
raises the generic TransistorAPIError with message Upload failed plus the
body text, carrying the status code and the response; a network-level
failure is not wrapped and propagates as the untyped underlying
exception. -/
theorem c6_upload_error_taxonomy (r : Response) :
    (r.status_code = 429 → ClientFixedFinal.upload_audio (.resp r) =
      .error (.apiErr ⟨.rateLimit, "Rate limit exceeded", some 429, some r⟩)) ∧
    (r.status_code ≠ 429 → 400 ≤ r.status_code →
      ClientFixedFinal.upload_audio (.resp r) =
        .error (.apiErr ⟨.generic, "Upload failed: " ++ r.text,
          some r.status_code, some r⟩)) ∧
    (∀ e, ClientFixedFinal.upload_audio (.netFail e) = .error (.untyped e)) := by
  refine ⟨fun h => ?_, fun h1 h2 => ?_, fun e => rfl⟩
  · simp [ClientFixedFinal.upload_audio, h]
  · simp only [ClientFixedFinal.upload_audio]
    rw [if_neg h1, if_pos (show ¬ r.ok by simp only [Response.ok]; omega)]

/-- C6 witness: a 404 upload response raises the generic error with the
status code and response attached. -/
theorem c6_upload_error_taxonomy_witness :
    ClientFixedFinal.upload_audio (.resp ⟨404, "missing", .error "nojson"⟩) =
      .error (.apiErr ⟨.generic, "Upload failed: missing", some 404,
        some ⟨404, "missing", .error "nojson"⟩⟩) :=
  (c6_upload_error_taxonomy ⟨404, "missing", .error "nojson"⟩).2.1 (by decide) (by decide)

/-- C3: on the nested 65-episode analytics document
(`data.attributes.episodes` listing ids 1..65), the
client_fixed_final.py workaround returns all 65 ids in document order,
but the client_actual_fix.py variant — which iterates `analytics[data]`
as if it were an array of episode records — iterates the keys of the
`data` object instead and raises TypeError on the first one, returning
no ids at all. -/
theorem c3_actual_fix_fails_on_nested_doc :
    ClientFixedFinal.get_all_episode_ids (mkAnalyticsDoc ids65) =
      .ok ((List.range 65).map (fun k => toString (k + 1))) ∧
    ClientActualFix.get_all_episode_ids (mkAnalyticsDoc ids65) =
      .error (.typeError "string indices must be integers, not str") := by
  exact ⟨rfl, rfl⟩

/-- C7 counterexample: with every fetch succeeding on a 9-id list, the
client_actual_fix.py loop sleeps after the 9th item even though it is
the last one; and with the first of 10 fetches failing, the
client_fixed_final.py loop sleeps after the item at position 9, which is
only the 8th successful fetch — the pause is keyed to list position, not
to the count of successful fetches. -/
theorem c7_counterexample_pause_positions :
    (ClientActualFix.get_all_episodes_full_data fetchConst ids9).sleeps = [8] ∧
    ids9.length = 9 ∧
    (ClientFixedFinal.get_all_episodes_full_data fetchFail1 ids10).sleeps = [8] ∧
    (ClientFixedFinal.get_all_episodes_full_data fetchFail1 ids10).failed_episodes =
      [("1", "boom")] :=
  ⟨rfl, rfl, rfl, rfl⟩

/-- C7 (amended): in both bulk loops the one-second pause happens after
iteration i (0-based) exactly when that iteration succeeded and the
position i+1 — counting all processed ids, failed ones included — is
divisible by 9; client_fixed_final.py additionally skips the pause when
i+1 is the last position, while client_actual_fix.py pauses even then. -/
theorem c7_pause_schedule (fetch : String → Except String JValue)
    (ids : List String) :
    (ClientFixedFinal.get_all_episodes_full_data fetch ids).sleeps =
      (ids.enumFrom 0).filterMap (fun p =>
        if (stepFetch fetch p.2).toOption.isSome ∧ (p.1 + 1) % 9 = 0 ∧
            p.1 + 1 < ids.length
        then some p.1 else none) ∧
    (ClientActualFix.get_all_episodes_full_data fetch ids).sleeps =
      (ids.enumFrom 0).filterMap (fun p =>
        if (stepFetch fetch p.2).toOption.isSome ∧ (p.1 + 1) % 9 = 0
        then some p.1 else none) :=
  ⟨bulkLoopFF_sleeps fetch ids 0 ids.length, bulkLoopAF_sleeps fetch ids 0⟩

/-- C9 counterexample: an analytics document whose `data` member is a
number is not shaped as the claim requires, yet `get_all_episode_ids`
does not return the empty list — the membership test
`attributes in analytics[data]` raises TypeError on the non-container
value. -/
theorem c9_counterexample_data_number_raises :
    ClientFixedFinal.get_all_episode_ids (.obj [("data", .num 123)]) =
      .error (.typeError "argument of type is not iterable") :=
  rfl

/-- C9 (amended): `get_all_episode_ids` returns the empty list when the
document lacks a `data` member, or when `data` is an object without an
`attributes` key (the membership test on a non-container `data` value
raises TypeError instead); and `get_all_episodes_full_data` over the
resulting empty id list reports zero successes and zero failures with
`total_requested = 0`. -/
theorem c9_malformed_analytics_empty (fs : List (String × JValue)) :
    (fs.lookup "data" = none →
      ClientFixedFinal.get_all_episode_ids (.obj fs) = .ok []) ∧
    (∀ gs, fs.lookup "data" = some (.obj gs) → gs.lookup "attributes" = none →
      ClientFixedFinal.get_all_episode_ids (.obj fs) = .ok []) ∧
    (∀ fetch, ClientFixedFinal.get_all_episodes_full_data fetch [] =
      ⟨[], 0, 0, 0, [], []⟩) := by
  refine ⟨fun h => ?_, fun gs h1 h2 => ?_, fun fetch => rfl⟩
  · simp [ClientFixedFinal.get_all_episode_ids, pyContains, h, except_bind_ok,
      except_pure_eq]
  · simp [ClientFixedFinal.get_all_episode_ids, pyContains, pyGetItem, h1, h2,
      except_bind_ok, except_pure_eq]

/-- C9 witness: a document with no `data` member yields the empty id
list, and the bulk fetch over no ids reports all-zero meta. -/
theorem c9_malformed_analytics_empty_witness :
    ClientFixedFinal.get_all_episode_ids (.obj [("foo", .null)]) = .ok [] ∧
    ClientFixedFinal.get_all_episodes_full_data (fun _ => .error "e") [] =
      ⟨[], 0, 0, 0, [], []⟩ :=
  ⟨(c9_malformed_analytics_empty [("foo", .null)]).1 rfl,
   (c9_malformed_analytics_empty [("foo", .null)]).2.2 (fun _ => .error "e")⟩

end Transistor
